import Mathlib

/-!
# Verification of the Hey Spider gait engine and supervisor

Shallow embedding of the quadruped controller (`src/spider_controller.py`),
the shutdown escalation logic (`main.py`) and the ultrasonic range sensor
polling loop, together with proofs settling the specification claims.

Python integers are modelled as `Int`; Python dictionaries keyed by fixed
string literals become association lists or structures with one field per
key; the stateful controller object becomes a state record threaded through
pure transition functions.
-/

namespace HeySpider

/-! ## Joint safety layer (`SpiderController._set_servo`) -/

/-- `self.servo_min = 0` (`spider_controller.py`, line 53). -/
def servo_min : Int := 0

/-- `self.servo_max = 180` (`spider_controller.py`, line 54). -/
def servo_max : Int := 180

/-- `angle = max(self.servo_min, min(self.servo_max, angle))`
(`spider_controller.py`, line 112). -/
def clampAngle (angle : Int) : Int :=
  max servo_min (min servo_max angle)

/-- The `SERVO_PINS` dictionary of `config/hardware_config.py`, lines 26-52:
servo channel for each `"leg_joint"` key, plus the four spare channels. -/
def SERVO_PINS : List (String × Nat) :=
  [("leg1_shoulder", 0), ("leg1_elbow", 1), ("leg1_foot", 2),
   ("leg2_shoulder", 3), ("leg2_elbow", 4), ("leg2_foot", 5),
   ("leg3_shoulder", 6), ("leg3_elbow", 7), ("leg3_foot", 8),
   ("leg4_shoulder", 9), ("leg4_elbow", 10), ("leg4_foot", 11),
   ("servo12", 12), ("servo13", 13), ("servo14", 14), ("servo15", 15)]

/-- Dictionary membership test `servo_key in SERVO_PINS` / access
`SERVO_PINS[servo_key]`. -/
def lookupPin (key : String) : Option Nat :=
  SERVO_PINS.lookup key

/-- The `ServoPosition` dataclass: one leg's three joint angles. -/
structure ServoPosition where
  shoulder : Int
  elbow : Int
  foot : Int
deriving Repr, DecidableEq

/-- The `self.current_positions` dictionary, whose keys are exactly
`'leg1'`, `'leg2'`, `'leg3'`, `'leg4'` (one field per key). -/
structure Positions where
  leg1 : ServoPosition
  leg2 : ServoPosition
  leg3 : ServoPosition
  leg4 : ServoPosition
deriving Repr, DecidableEq

/-- The mutable controller state relevant to the gait engine:
`self.is_moving`, `self.current_mode` and `self.current_positions`. -/
structure SpiderState where
  is_moving : Bool
  current_mode : String
  current_positions : Positions
deriving Repr, DecidableEq

/-- `setattr(self.current_positions[leg], joint, angle)` restricted to one
leg: write the named joint attribute.  For the twelve keys present in
`SERVO_PINS` the joint name is always one of the three attributes. -/
def ServoPosition.setJoint (p : ServoPosition) (joint : String) (a : Int) :
    ServoPosition :=
  if joint = "shoulder" then { p with shoulder := a }
  else if joint = "elbow" then { p with elbow := a }
  else if joint = "foot" then { p with foot := a }
  else p

/-- `if leg in self.current_positions: setattr(...)` — update the named
leg's joint if the leg key is present, otherwise leave the dictionary
unchanged (`spider_controller.py`, lines 122-123). -/
def Positions.setLeg (ps : Positions) (leg joint : String) (a : Int) :
    Positions :=
  if leg = "leg1" then { ps with leg1 := ps.leg1.setJoint joint a }
  else if leg = "leg2" then { ps with leg2 := ps.leg2.setJoint joint a }
  else if leg = "leg3" then { ps with leg3 := ps.leg3.setJoint joint a }
  else if leg = "leg4" then { ps with leg4 := ps.leg4.setJoint joint a }
  else ps

/-- `SpiderController._set_servo(leg, joint, angle)`
(`spider_controller.py`, lines 109-130), state effect only: clamp the angle,
return unchanged if the key is absent from `SERVO_PINS`, otherwise store the
clamped angle.  The hardware write (which cannot affect the state) is
modelled separately by `set_servo_hw`. -/
def set_servo (s : SpiderState) (leg joint : String) (angle : Int) :
    SpiderState :=
  let a := clampAngle angle
  match lookupPin (leg ++ "_" ++ joint) with
  | none => s
  | some _ =>
      { s with current_positions := s.current_positions.setLeg leg joint a }

/-- `self.servos.servo[servo_index].angle = angle` inside its
`try`/`except`: the external write may raise (`hwFail` says which writes
do); the exception is caught and only logged. -/
def try_hw_write (hwFail : Nat → Int → Bool) (idx : Nat) (a : Int) :
    Except String Unit :=
  if hwFail idx a then Except.error "servo write raised" else Except.ok ()

/-- `SpiderController._set_servo` with the hardware interaction made
explicit: `servosPresent` models `self.servos` being non-`None`, `hwFail`
models which raw writes raise.  Returns the successor state together with
the list of attempted hardware writes `(channel, angle)`; an
`Except.error` result would model an uncaught exception escaping to the
caller. -/
def set_servo_hw (servosPresent : Bool) (hwFail : Nat → Int → Bool)
    (s : SpiderState) (leg joint : String) (angle : Int) :
    Except String (SpiderState × List (Nat × Int)) :=
  let a := clampAngle angle
  match lookupPin (leg ++ "_" ++ joint) with
  | none => Except.ok (s, [])
  | some idx =>
      let s' :=
        { s with current_positions := s.current_positions.setLeg leg joint a }
      if servosPresent then
        match try_hw_write hwFail idx a with
        | Except.ok _ => Except.ok (s', [(idx, a)])
        | Except.error _ => Except.ok (s', [(idx, a)])
      else Except.ok (s', [])

/-! ## Home poses and movement parameters (`SpiderController.__init__`) -/

/-- `self.step_height = 30` (line 47). -/
def step_height : Int := 30

/-- `self.step_forward = 20` (line 48). -/
def step_forward : Int := 20

/-- `self.turn_angle = 15` (line 49). -/
def turn_angle : Int := 15

/-- The `self.home_positions` dictionary (lines 57-62). -/
def home_positions : List (String × ServoPosition) :=
  [("leg1", ⟨90, 120, 60⟩), ("leg2", ⟨90, 120, 60⟩),
   ("leg3", ⟨90, 60, 120⟩), ("leg4", ⟨90, 60, 120⟩)]

/-- Dictionary access `self.home_positions[leg]`.  Every access in the
source uses one of the four present keys, so the fallback value is never
reached; it only makes the lookup total. -/
def homeOf (leg : String) : ServoPosition :=
  (home_positions.lookup leg).getD ⟨90, 90, 90⟩

/-- `self.home_positions.keys()` / the dictionary's iteration order. -/
def legNames : List String := ["leg1", "leg2", "leg3", "leg4"]

/-- `self.current_positions` as initialised from the home poses, i.e. the
`Positions` record holding each leg's home pose. -/
def homePositionsP : Positions :=
  ⟨⟨90, 120, 60⟩, ⟨90, 120, 60⟩, ⟨90, 60, 120⟩, ⟨90, 60, 120⟩⟩

/-! ## Gait primitives as sequences of joint writes

Each locomotion primitive's body performs a linear sequence of
`_set_servo` calls (the interleaved `time.sleep` pacing delays do not
touch the state).  We represent that sequence as a `List` of joint writes
and fold it over the state; this also lets us model an exception
interrupting the body after any prefix of the writes. -/

/-- One `_set_servo(leg, joint, angle)` call site. -/
structure Action where
  leg : String
  joint : String
  angle : Int
deriving Repr, DecidableEq

/-- Execute a sequence of `_set_servo` calls. -/
def runWrites (s : SpiderState) (ws : List Action) : SpiderState :=
  ws.foldl (fun t w => set_servo t w.leg w.joint w.angle) s

/-- `for _ in range(n): <body>` for a loop body whose writes do not depend
on the iteration index. -/
def repeatList (n : Nat) (xs : List Action) : List Action :=
  match n with
  | 0 => []
  | Nat.succ m => xs ++ repeatList m xs

/-- `_set_leg_position(leg, shoulder, elbow, foot)` (lines 132-138). -/
def set_leg_writes (leg : String) (p : ServoPosition) : List Action :=
  [⟨leg, "shoulder", p.shoulder⟩, ⟨leg, "elbow", p.elbow⟩,
   ⟨leg, "foot", p.foot⟩]

/-- `_lift_legs(legs)` (lines 403-408): elbow to home minus step height for
each listed leg that is a key of `home_positions`. -/
def lift_legs_writes (ls : List String) : List Action :=
  ls.foldr
    (fun l acc =>
      if legNames.contains l then
        ⟨l, "elbow", (homeOf l).elbow - step_height⟩ :: acc
      else acc) []

/-- `_lower_legs(legs)` (lines 410-414): elbow back to home. -/
def lower_legs_writes (ls : List String) : List Action :=
  ls.foldr
    (fun l acc =>
      if legNames.contains l then ⟨l, "elbow", (homeOf l).elbow⟩ :: acc
      else acc) []

/-- `_move_legs_forward(legs)` (lines 416-421): foot to home plus step
length. -/
def move_forward_writes (ls : List String) : List Action :=
  ls.foldr
    (fun l acc =>
      if legNames.contains l then
        ⟨l, "foot", (homeOf l).foot + step_forward⟩ :: acc
      else acc) []

/-- `_move_legs_backward(legs)` (lines 423-428): foot to home minus step
length. -/
def move_backward_writes (ls : List String) : List Action :=
  ls.foldr
    (fun l acc =>
      if legNames.contains l then
        ⟨l, "foot", (homeOf l).foot - step_forward⟩ :: acc
      else acc) []

/-- One `walk_forward` gait iteration (lines 199-222): lift {1,3,4},
advance them, lower them, then the same for {2}. -/
def walkF_cycle : List Action :=
  lift_legs_writes ["leg1", "leg3", "leg4"]
    ++ move_forward_writes ["leg1", "leg3", "leg4"]
    ++ lower_legs_writes ["leg1", "leg3", "leg4"]
    ++ lift_legs_writes ["leg2"]
    ++ move_forward_writes ["leg2"]
    ++ lower_legs_writes ["leg2"]

/-- One `walk_backward` gait iteration (lines 238-251). -/
def walkB_cycle : List Action :=
  lift_legs_writes ["leg1", "leg3", "leg4"]
    ++ move_backward_writes ["leg1", "leg3", "leg4"]
    ++ lower_legs_writes ["leg1", "leg3", "leg4"]
    ++ lift_legs_writes ["leg2"]
    ++ move_backward_writes ["leg2"]
    ++ lower_legs_writes ["leg2"]

/-- `steps = angle // 15` (lines 267 and 307); Python `//` is floor
division, `Int.fdiv`. -/
def turn_steps (angle : Int) : Int := Int.fdiv angle 15

/-- One `turn_left` rotation cycle (lines 268-291). -/
def turnL_cycle : List Action :=
  lift_legs_writes ["leg1", "leg4"]
    ++ [⟨"leg1", "shoulder", (homeOf "leg1").shoulder - turn_angle⟩,
        ⟨"leg4", "shoulder", (homeOf "leg4").shoulder + turn_angle⟩]
    ++ lower_legs_writes ["leg1", "leg4"]
    ++ lift_legs_writes ["leg2", "leg3"]
    ++ [⟨"leg2", "shoulder", (homeOf "leg2").shoulder - turn_angle⟩,
        ⟨"leg3", "shoulder", (homeOf "leg3").shoulder + turn_angle⟩]
    ++ lower_legs_writes ["leg2", "leg3"]

/-- One `turn_right` rotation cycle (lines 308-331); mirror image of
`turnL_cycle`. -/
def turnR_cycle : List Action :=
  lift_legs_writes ["leg1", "leg4"]
    ++ [⟨"leg1", "shoulder", (homeOf "leg1").shoulder + turn_angle⟩,
        ⟨"leg4", "shoulder", (homeOf "leg4").shoulder - turn_angle⟩]
    ++ lower_legs_writes ["leg1", "leg4"]
    ++ lift_legs_writes ["leg2", "leg3"]
    ++ [⟨"leg2", "shoulder", (homeOf "leg2").shoulder + turn_angle⟩,
        ⟨"leg3", "shoulder", (homeOf "leg3").shoulder - turn_angle⟩]
    ++ lower_legs_writes ["leg2", "leg3"]

/-- The writes of `walk_forward(steps)`'s gait loop; `range(steps)` of a
Python `int` iterates `max(steps, 0)` times. -/
def walk_forward_writes (steps : Int) : List Action :=
  repeatList steps.toNat walkF_cycle

/-- The writes of `walk_backward(steps)`'s gait loop. -/
def walk_backward_writes (steps : Int) : List Action :=
  repeatList steps.toNat walkB_cycle

/-- The writes of `turn_left(angle)`'s gait loop:
`for _ in range(angle // 15)`. -/
def turn_left_writes (angle : Int) : List Action :=
  repeatList (turn_steps angle).toNat turnL_cycle

/-- The writes of `turn_right(angle)`'s gait loop. -/
def turn_right_writes (angle : Int) : List Action :=
  repeatList (turn_steps angle).toNat turnR_cycle

/-- The elbow-bob portion of one dance repetition (lines 350-356): each leg
dips its elbow and restores it. -/
def dance_wave_writes : List Action :=
  legNames.foldr
    (fun l acc =>
      ⟨l, "elbow", (homeOf l).elbow - 30⟩ :: ⟨l, "elbow", (homeOf l).elbow⟩
        :: acc) []

/-- `offset = 15 if i % 2 == 0 else -15` (line 360). -/
def wiggleOffset (i : Nat) : Int := if i % 2 == 0 then 15 else -15

/-- The body-wiggle portion of one dance repetition (lines 359-364):
`for i in range(4)`, all shoulders to home plus the alternating offset. -/
def dance_wiggle_writes : List Action :=
  (List.range 4).foldr
    (fun i acc =>
      legNames.foldr
        (fun l acc2 => ⟨l, "shoulder", (homeOf l).shoulder + wiggleOffset i⟩
          :: acc2) acc) []

/-- The writes of `dance()`'s choreography loop (lines 348-364):
three repetitions of elbow bob followed by body wiggle. -/
def dance_writes : List Action :=
  repeatList 3 (dance_wave_writes ++ dance_wiggle_writes)

/-- The writes of `wave()`'s body (lines 380-390): raise the front-right
leg, then cycle its foot five times. -/
def wave_writes : List Action :=
  [⟨"leg1", "shoulder", 90⟩, ⟨"leg1", "elbow", 45⟩]
    ++ repeatList 5 [⟨"leg1", "foot", 30⟩, ⟨"leg1", "foot", 90⟩]

/-- `int(home.elbow + progress * 30)` for `progress = i / 10`
(`sit_down`, lines 178-183): under IEEE-754 double arithmetic
`(i / 10) * 30` evaluates exactly to the double `3 * i` for every
`i < 10` (each quotient and product rounds to the nearest double, which
is within half an ulp of the integer), so the truncation yields
`home.elbow + 3 * i`. -/
def sit_down_writes : List Action :=
  (List.range 10).foldr
    (fun i acc =>
      legNames.foldr
        (fun l acc2 => ⟨l, "elbow", (homeOf l).elbow + 3 * (i : Int)⟩ :: acc2)
        acc) []

/-- `int(home.elbow + (1 - progress) * 30)` (`stand_up`, lines 159-164):
under IEEE-754 double arithmetic the truncated sum equals
`home.elbow + (30 - 3 * i)` for every `i < 10` (for `i ∈ {7, 8, 9}` the
product is not exactly integral, but adding the integer home angle rounds
the sum back to the integer, so the truncation is unaffected). -/
def stand_up_writes : List Action :=
  (List.range 10).foldr
    (fun i acc =>
      legNames.foldr
        (fun l acc2 =>
          ⟨l, "elbow", (homeOf l).elbow + (30 - 3 * (i : Int))⟩ :: acc2)
        acc) []

/-- `go_home()`'s write sequence (lines 145-148): each leg in dictionary
order to its home pose. -/
def go_home_writes : List Action :=
  legNames.foldr (fun l acc => set_leg_writes l (homeOf l) ++ acc) []

/-! ## The locomotion primitives as state transitions -/

/-- `SpiderController.go_home` (lines 140-151): set the mode and drive
every joint to its home pose. -/
def go_home (s : SpiderState) : SpiderState :=
  runWrites { s with current_mode := "HOME" } go_home_writes

/-- `SpiderController.stand_up` (lines 153-170): mode `STANDING`, the
ten-step elbow ramp, then `go_home()`. -/
def stand_up (s : SpiderState) : SpiderState :=
  go_home (runWrites { s with current_mode := "STANDING" } stand_up_writes)

/-- `SpiderController.sit_down` (lines 172-187): mode `SITTING` and the
ten-step elbow ramp; `sit_down` does not call `go_home`. -/
def sit_down (s : SpiderState) : SpiderState :=
  runWrites { s with current_mode := "SITTING" } sit_down_writes

/-- The shared `finally:` block of every gait primitive (e.g. lines
224-226): `self.is_moving = False; self.go_home()`. -/
def gait_finally (s : SpiderState) : SpiderState :=
  go_home { s with is_moving := false }

/-- `SpiderController.walk_forward(steps)` (lines 189-226), normal
completion. -/
def walk_forward (s : SpiderState) (steps : Int) : SpiderState :=
  gait_finally
    (runWrites { s with is_moving := true, current_mode := "WALKING" }
      (walk_forward_writes steps))

/-- `SpiderController.walk_backward(steps)` (lines 228-255). -/
def walk_backward (s : SpiderState) (steps : Int) : SpiderState :=
  gait_finally
    (runWrites { s with is_moving := true, current_mode := "WALKING_BACK" }
      (walk_backward_writes steps))

/-- `SpiderController.turn_left(angle)` (lines 257-295). -/
def turn_left (s : SpiderState) (angle : Int) : SpiderState :=
  gait_finally
    (runWrites { s with is_moving := true, current_mode := "TURNING_LEFT" }
      (turn_left_writes angle))

/-- `SpiderController.turn_right(angle)` (lines 297-335). -/
def turn_right (s : SpiderState) (angle : Int) : SpiderState :=
  gait_finally
    (runWrites { s with is_moving := true, current_mode := "TURNING_RIGHT" }
      (turn_right_writes angle))

/-- `SpiderController.dance` (lines 337-368). -/
def dance (s : SpiderState) : SpiderState :=
  gait_finally
    (runWrites { s with is_moving := true, current_mode := "DANCING" }
      dance_writes)

/-- `SpiderController.wave` (lines 370-394). -/
def wave (s : SpiderState) : SpiderState :=
  gait_finally
    (runWrites { s with is_moving := true, current_mode := "WAVING" }
      wave_writes)

/-- `SpiderController.stop` (lines 396-401): clear the moving flag, mode
`STOPPED`, then `go_home()` (which overwrites the mode with `HOME`). -/
def stop (s : SpiderState) : SpiderState :=
  go_home { s with is_moving := false, current_mode := "STOPPED" }

/-- The public locomotion primitives of the gait engine. -/
inductive GaitOp where
  | go_home : GaitOp
  | stand_up : GaitOp
  | sit_down : GaitOp
  | walk_forward (steps : Int) : GaitOp
  | walk_backward (steps : Int) : GaitOp
  | turn_left (angle : Int) : GaitOp
  | turn_right (angle : Int) : GaitOp
  | dance : GaitOp
  | wave : GaitOp
  | stop : GaitOp
deriving Repr, DecidableEq

/-- Run one public locomotion primitive. -/
def applyOp (op : GaitOp) (s : SpiderState) : SpiderState :=
  match op with
  | GaitOp.go_home => go_home s
  | GaitOp.stand_up => stand_up s
  | GaitOp.sit_down => sit_down s
  | GaitOp.walk_forward steps => walk_forward s steps
  | GaitOp.walk_backward steps => walk_backward s steps
  | GaitOp.turn_left angle => turn_left s angle
  | GaitOp.turn_right angle => turn_right s angle
  | GaitOp.dance => dance s
  | GaitOp.wave => wave s
  | GaitOp.stop => stop s

/-! ## Interrupted gait runs

The six gait primitives wrap their loop in `try ... finally`; an exception
raised anywhere inside the loop aborts the remaining writes but still runs
the `finally:` block.  `runGaitInterrupted g s k` is the state reached when
the body is cut off after its first `k` joint writes. -/

/-- The six `try`/`finally` gait primitives. -/
inductive Gait where
  | walk_forward (steps : Int) : Gait
  | walk_backward (steps : Int) : Gait
  | turn_left (angle : Int) : Gait
  | turn_right (angle : Int) : Gait
  | dance : Gait
  | wave : Gait
deriving Repr, DecidableEq

/-- The write sequence of a gait's loop body. -/
def Gait.writes : Gait → List Action
  | Gait.walk_forward steps => walk_forward_writes steps
  | Gait.walk_backward steps => walk_backward_writes steps
  | Gait.turn_left angle => turn_left_writes angle
  | Gait.turn_right angle => turn_right_writes angle
  | Gait.dance => dance_writes
  | Gait.wave => wave_writes

/-- The entry assignments of a gait primitive (`is_moving = True` and the
mode string set before the `try` block). -/
def Gait.entry : Gait → SpiderState → SpiderState
  | Gait.walk_forward _, s => { s with is_moving := true, current_mode := "WALKING" }
  | Gait.walk_backward _, s => { s with is_moving := true, current_mode := "WALKING_BACK" }
  | Gait.turn_left _, s => { s with is_moving := true, current_mode := "TURNING_LEFT" }
  | Gait.turn_right _, s => { s with is_moving := true, current_mode := "TURNING_RIGHT" }
  | Gait.dance, s => { s with is_moving := true, current_mode := "DANCING" }
  | Gait.wave, s => { s with is_moving := true, current_mode := "WAVING" }

/-- The corresponding public primitive. -/
def Gait.toOp : Gait → GaitOp
  | Gait.walk_forward steps => GaitOp.walk_forward steps
  | Gait.walk_backward steps => GaitOp.walk_backward steps
  | Gait.turn_left angle => GaitOp.turn_left angle
  | Gait.turn_right angle => GaitOp.turn_right angle
  | Gait.dance => GaitOp.dance
  | Gait.wave => GaitOp.wave

/-- A gait run interrupted by an exception after `k` of its body's joint
writes: the prefix executes, then the `finally:` block runs. -/
def runGaitInterrupted (g : Gait) (s : SpiderState) (k : Nat) : SpiderState :=
  gait_finally (runWrites (g.entry s) (g.writes.take k))

/-! ## Shutdown escalation (`main.py`, `HeySpiderRobot.signal_handler`)

The handler branches on two boolean flags (`main.py`, lines 65-66,
371-410): `shutdown_requested`, set by the handler itself on the first
signal, and `shutdown_in_progress`, set to `True` by the background
`_graceful_shutdown` thread as its first statement (line 415) and back to
`False` at its end (line 468). -/

/-- The pair `(shutdown_requested, shutdown_in_progress)`. -/
structure ShutdownFlags where
  shutdown_requested : Bool
  shutdown_in_progress : Bool
deriving Repr, DecidableEq

/-- Flag state at process start (`main.py`, lines 65-66). -/
def initShutdownFlags : ShutdownFlags := ⟨false, false⟩

/-- The three branches of `signal_handler`. -/
inductive ShutdownBranch where
  | graceful : ShutdownBranch
  | forced : ShutdownBranch
  | immediate : ShutdownBranch
deriving Repr, DecidableEq

/-- The branch `signal_handler` takes for a given flag state
(`main.py`, lines 371, 400, 408): first signal starts the graceful path,
`elif not self.shutdown_in_progress` runs `_force_shutdown()` and
`sys.exit(1)`, and the remaining `else` calls `os._exit(1)`. -/
def signal_branch (f : ShutdownFlags) : ShutdownBranch :=
  if !f.shutdown_requested then ShutdownBranch.graceful
  else if !f.shutdown_in_progress then ShutdownBranch.forced
  else ShutdownBranch.immediate

/-- Flag effect of the first-signal branch: `self.shutdown_requested =
True` (line 372). -/
def first_signal_sets (f : ShutdownFlags) : ShutdownFlags :=
  { f with shutdown_requested := true }

/-- Flag effect of `_graceful_shutdown` starting on its background thread:
`self.shutdown_in_progress = True` (line 415). -/
def graceful_entry_sets (f : ShutdownFlags) : ShutdownFlags :=
  { f with shutdown_in_progress := true }

/-- The flag state that holds during an in-flight graceful shutdown: the
first signal was handled and the graceful thread has started. -/
def duringGracefulFlags : ShutdownFlags :=
  graceful_entry_sets (first_signal_sets initShutdownFlags)

/-- Outcome of the whole first-signal branch (`main.py`, lines 380-397):
the handler joins the graceful thread with a 15 s timeout; if the thread is
still alive it calls `_force_shutdown()`; either way it then runs
`sys.exit(0)`. -/
structure ExitOutcome where
  forcedRan : Bool
  exitCode : Nat
deriving Repr, DecidableEq

/-- First-signal path as a function of whether the graceful thread
finished within the 15 s join timeout. -/
def first_signal_outcome (gracefulFinishedInTime : Bool) : ExitOutcome :=
  if gracefulFinishedInTime then ⟨false, 0⟩ else ⟨true, 0⟩

/-- Second-signal (`elif not self.shutdown_in_progress`) path
(lines 400-405): `_force_shutdown(); sys.exit(1)`. -/
def second_signal_outcome : ExitOutcome := ⟨true, 1⟩

/-- Exit code of the fatal-startup handlers in `main()` (`main.py`, lines
623, 672, 681): every fatal startup error calls `sys.exit(1)`. -/
def fatal_startup_exit_code : Nat := 1

/-! ## Range sensor (`SpiderController.get_distance`, lines 430-469)

The sensor pulses the trigger line, then runs two polling loops: one that
waits while the echo line reads LOW (recording `pulse_start` each
iteration), one that waits while it reads HIGH (recording `pulse_end`),
each aborting with `return 0.0` once the polled time exceeds
`timeout = time.time() + 0.1`.

The environment is an I/O double: `echo k` is the `k`-th `GPIO.input`
reading (`true` = HIGH), `clock n` the `n`-th `time.time()` value in
microsecond ticks (`Int` abstracts the float clock; only order and
differences of readings matter to the source's control flow and sign of
the result).  `ioError` models a GPIO call raising, which the
surrounding `except` clause converts to `return 0.0`.  The polling loops
are given explicit fuel; `Measurement.diverged` marks fuel exhaustion
(the loops only terminate because the real clock advances). -/

/-- I/O double for the ultrasonic measurement. -/
structure EchoEnv where
  ioError : Bool
  echo : Nat → Bool
  clock : Nat → Int

/-- `timeout = time.time() + 0.1` — 0.1 s in microsecond ticks. -/
def ECHO_TIMEOUT_TICKS : Int := 100000

/-- Result of one polling loop: fuel ran out, the timeout guard fired
(`return 0.0`), or the loop exited on an edge, returning the next unread
echo index, the next unread clock index and the final pulse timestamp. -/
inductive EdgeWait where
  | fuelOut : EdgeWait
  | timedOut : EdgeWait
  | edge (eIdx tIdx : Nat) (pulse : Int) : EdgeWait
deriving Repr, DecidableEq

/-- `while GPIO.input(echo) == level: pulse = time.time(); if pulse >
timeout: return 0.0` — one polling loop.  Each iteration consumes one echo
reading and, if the loop continues, one clock reading. -/
def wait_while (env : EchoEnv) (level : Bool) (timeout : Int) :
    Nat → Nat → Nat → Int → EdgeWait
  | 0, _, _, _ => EdgeWait.fuelOut
  | Nat.succ fuel, eIdx, tIdx, pulse =>
    if env.echo eIdx = level then
      let t := env.clock tIdx
      if timeout < t then EdgeWait.timedOut
      else wait_while env level timeout fuel (eIdx + 1) (tIdx + 1) t
    else EdgeWait.edge (eIdx + 1) tIdx pulse

/-- Result of a measurement.  `value d` is the returned distance up to the
positive constant scale: the source returns `round(duration * 17150, 2)`
whose sign and zeroness agree with the integer `d = duration_ticks *
17150`. -/
inductive Measurement where
  | diverged : Measurement
  | value (d : Int) : Measurement
deriving Repr, DecidableEq

/-- `SpiderController.get_distance` on the GPIO path: three initial clock
reads (`pulse_start`, `pulse_end`, the timeout base), the LOW-polling loop,
the HIGH-polling loop, then the distance computation. -/
def get_distance (env : EchoEnv) (fuel : Nat) : Measurement :=
  if env.ioError then Measurement.value 0
  else
    let pulse_start := env.clock 0
    let pulse_end := env.clock 1
    let timeout := env.clock 2 + ECHO_TIMEOUT_TICKS
    match wait_while env false timeout fuel 0 3 pulse_start with
    | EdgeWait.fuelOut => Measurement.diverged
    | EdgeWait.timedOut => Measurement.value 0
    | EdgeWait.edge eIdx tIdx ps =>
      match wait_while env true timeout fuel eIdx tIdx pulse_end with
      | EdgeWait.fuelOut => Measurement.diverged
      | EdgeWait.timedOut => Measurement.value 0
      | EdgeWait.edge _ _ pe => Measurement.value ((pe - ps) * 17150)

/-! ## Basic lemmas about the joint safety layer -/

theorem clampAngle_nonneg (a : Int) : servo_min ≤ clampAngle a :=
  le_max_left _ _

theorem clampAngle_le_max (a : Int) : clampAngle a ≤ servo_max :=
  max_le (by norm_num [servo_min, servo_max]) (min_le_left _ _)

theorem clampAngle_of_inRange (a : Int) (h0 : servo_min ≤ a)
    (h1 : a ≤ servo_max) : clampAngle a = a := by
  unfold clampAngle
  omega

/-- The safe range for a single joint angle. -/
def ServoPosition.inRange (p : ServoPosition) : Prop :=
  servo_min ≤ p.shoulder ∧ p.shoulder ≤ servo_max ∧
  servo_min ≤ p.elbow ∧ p.elbow ≤ servo_max ∧
  servo_min ≤ p.foot ∧ p.foot ≤ servo_max

instance (p : ServoPosition) : Decidable p.inRange := by
  unfold ServoPosition.inRange
  infer_instance

/-- All twelve stored joint angles are inside the safe range. -/
def Positions.inRange (ps : Positions) : Prop :=
  ps.leg1.inRange ∧ ps.leg2.inRange ∧ ps.leg3.inRange ∧ ps.leg4.inRange

instance (ps : Positions) : Decidable ps.inRange := by
  unfold Positions.inRange
  infer_instance

/-- The controller state satisfies the joint safety invariant. -/
def SpiderState.inRange (s : SpiderState) : Prop :=
  s.current_positions.inRange

instance (s : SpiderState) : Decidable s.inRange := by
  unfold SpiderState.inRange
  infer_instance

theorem ServoPosition.setJoint_inRange {p : ServoPosition} {a : Int}
    (j : String) (hp : p.inRange) (h0 : servo_min ≤ a) (h1 : a ≤ servo_max) :
    (p.setJoint j a).inRange := by
  unfold ServoPosition.setJoint ServoPosition.inRange at *
  split_ifs <;> simp_all

theorem Positions.setLeg_inRange {ps : Positions} {a : Int} (l j : String)
    (hp : ps.inRange) (h0 : servo_min ≤ a) (h1 : a ≤ servo_max) :
    (ps.setLeg l j a).inRange := by
  unfold Positions.setLeg Positions.inRange at *
  obtain ⟨p1, p2, p3, p4⟩ := hp
  split_ifs <;>
    exact ⟨by first | exact ServoPosition.setJoint_inRange j p1 h0 h1 | exact p1,
           by first | exact ServoPosition.setJoint_inRange j p2 h0 h1 | exact p2,
           by first | exact ServoPosition.setJoint_inRange j p3 h0 h1 | exact p3,
           by first | exact ServoPosition.setJoint_inRange j p4 h0 h1 | exact p4⟩

theorem set_servo_inRange {s : SpiderState} (l j : String) (a : Int)
    (h : s.inRange) : (set_servo s l j a).inRange := by
  unfold set_servo
  cases lookupPin (l ++ "_" ++ j) with
  | none => exact h
  | some idx =>
      exact Positions.setLeg_inRange l j h (clampAngle_nonneg a)
        (clampAngle_le_max a)

theorem runWrites_inRange (ws : List Action) (s : SpiderState)
    (h : s.inRange) : (runWrites s ws).inRange := by
  induction ws generalizing s with
  | nil => exact h
  | cons w ws ih => exact ih _ (set_servo_inRange w.leg w.joint w.angle h)

theorem set_servo_is_moving (s : SpiderState) (l j : String) (a : Int) :
    (set_servo s l j a).is_moving = s.is_moving := by
  unfold set_servo
  cases lookupPin (l ++ "_" ++ j) <;> rfl

theorem runWrites_is_moving (ws : List Action) (s : SpiderState) :
    (runWrites s ws).is_moving = s.is_moving := by
  induction ws generalizing s with
  | nil => rfl
  | cons w ws ih => rw [runWrites, List.foldl_cons, ← runWrites, ih,
      set_servo_is_moving]

theorem set_servo_mode (s : SpiderState) (l j : String) (a : Int) :
    (set_servo s l j a).current_mode = s.current_mode := by
  unfold set_servo
  cases lookupPin (l ++ "_" ++ j) <;> rfl

theorem runWrites_mode (ws : List Action) (s : SpiderState) :
    (runWrites s ws).current_mode = s.current_mode := by
  induction ws generalizing s with
  | nil => rfl
  | cons w ws ih => rw [runWrites, List.foldl_cons, ← runWrites, ih,
      set_servo_mode]

/-! ## State lemmas for the locomotion primitives -/

theorem go_home_positions (s : SpiderState) :
    (go_home s).current_positions = homePositionsP := by
  simp [go_home, runWrites, go_home_writes, legNames, set_leg_writes, homeOf,
    home_positions, set_servo, lookupPin, SERVO_PINS, List.lookup,
    Positions.setLeg, ServoPosition.setJoint, clampAngle, servo_min,
    servo_max, homePositionsP]

theorem go_home_is_moving (s : SpiderState) :
    (go_home s).is_moving = s.is_moving := by
  unfold go_home
  rw [runWrites_is_moving]

theorem go_home_mode (s : SpiderState) : (go_home s).current_mode = "HOME" := by
  unfold go_home
  rw [runWrites_mode]

theorem go_home_inRange (s : SpiderState) : (go_home s).inRange := by
  show (go_home s).current_positions.inRange
  rw [go_home_positions]
  decide

theorem gait_finally_is_moving (s : SpiderState) :
    (gait_finally s).is_moving = false := by
  unfold gait_finally
  rw [go_home_is_moving]

theorem gait_finally_positions (s : SpiderState) :
    (gait_finally s).current_positions = homePositionsP :=
  go_home_positions _

theorem gait_finally_mode (s : SpiderState) :
    (gait_finally s).current_mode = "HOME" :=
  go_home_mode _

/-- Final stored positions of `sit_down`: the last ramp iteration
(`i = 9`) leaves every elbow at its home value plus 27 degrees; shoulders
and feet keep their pre-state values. -/
theorem sit_down_positions (s : SpiderState) :
    (sit_down s).current_positions =
      ⟨⟨s.current_positions.leg1.shoulder, 147, s.current_positions.leg1.foot⟩,
       ⟨s.current_positions.leg2.shoulder, 147, s.current_positions.leg2.foot⟩,
       ⟨s.current_positions.leg3.shoulder, 87, s.current_positions.leg3.foot⟩,
       ⟨s.current_positions.leg4.shoulder, 87,
         s.current_positions.leg4.foot⟩⟩ := by
  have h10 : List.range 10 = [0, 1, 2, 3, 4, 5, 6, 7, 8, 9] := by decide
  simp [sit_down, runWrites, sit_down_writes, h10, legNames, homeOf,
    home_positions, set_servo, lookupPin, SERVO_PINS, List.lookup,
    Positions.setLeg, ServoPosition.setJoint, clampAngle, servo_min,
    servo_max]

theorem stand_up_positions (s : SpiderState) :
    (stand_up s).current_positions = homePositionsP :=
  go_home_positions
    (runWrites { s with current_mode := "STANDING" } stand_up_writes)

theorem walk_forward_positions (s : SpiderState) (steps : Int) :
    (walk_forward s steps).current_positions = homePositionsP :=
  go_home_positions
    { runWrites { s with is_moving := true, current_mode := "WALKING" }
        (walk_forward_writes steps) with is_moving := false }

theorem walk_backward_positions (s : SpiderState) (steps : Int) :
    (walk_backward s steps).current_positions = homePositionsP :=
  go_home_positions
    { runWrites { s with is_moving := true, current_mode := "WALKING_BACK" }
        (walk_backward_writes steps) with is_moving := false }

theorem turn_left_positions (s : SpiderState) (angle : Int) :
    (turn_left s angle).current_positions = homePositionsP :=
  go_home_positions
    { runWrites { s with is_moving := true, current_mode := "TURNING_LEFT" }
        (turn_left_writes angle) with is_moving := false }

theorem turn_right_positions (s : SpiderState) (angle : Int) :
    (turn_right s angle).current_positions = homePositionsP :=
  go_home_positions
    { runWrites { s with is_moving := true, current_mode := "TURNING_RIGHT" }
        (turn_right_writes angle) with is_moving := false }

theorem dance_positions (s : SpiderState) :
    (dance s).current_positions = homePositionsP :=
  go_home_positions
    { runWrites { s with is_moving := true, current_mode := "DANCING" }
        dance_writes with is_moving := false }

theorem wave_positions (s : SpiderState) :
    (wave s).current_positions = homePositionsP :=
  go_home_positions
    { runWrites { s with is_moving := true, current_mode := "WAVING" }
        wave_writes with is_moving := false }

theorem stop_positions (s : SpiderState) :
    (stop s).current_positions = homePositionsP :=
  go_home_positions { s with is_moving := false, current_mode := "STOPPED" }

theorem sit_down_inRange (s : SpiderState) (h : s.inRange) :
    (sit_down s).inRange := by
  show (sit_down s).current_positions.inRange
  rw [sit_down_positions]
  obtain ⟨⟨h1a, h1b, h1c, h1d, h1e, h1f⟩, ⟨h2a, h2b, h2c, h2d, h2e, h2f⟩,
    ⟨h3a, h3b, h3c, h3d, h3e, h3f⟩, ⟨h4a, h4b, h4c, h4d, h4e, h4f⟩⟩ := h
  refine ⟨⟨h1a, h1b, ?_, ?_, h1e, h1f⟩, ⟨h2a, h2b, ?_, ?_, h2e, h2f⟩,
    ⟨h3a, h3b, ?_, ?_, h3e, h3f⟩, ⟨h4a, h4b, ?_, ?_, h4e, h4f⟩⟩ <;>
    simp [servo_min, servo_max]

/-- Every primitive applies only flag updates and `_set_servo` writes, so
the safety invariant is preserved. -/
theorem applyOp_inRange (op : GaitOp) (s : SpiderState) (h : s.inRange) :
    (applyOp op s).inRange := by
  cases op with
  | go_home =>
      show (go_home s).current_positions.inRange
      rw [go_home_positions]
      decide
  | stand_up =>
      show (stand_up s).current_positions.inRange
      rw [stand_up_positions]
      decide
  | sit_down => exact sit_down_inRange s h
  | walk_forward steps =>
      show (walk_forward s steps).current_positions.inRange
      rw [walk_forward_positions]
      decide
  | walk_backward steps =>
      show (walk_backward s steps).current_positions.inRange
      rw [walk_backward_positions]
      decide
  | turn_left angle =>
      show (turn_left s angle).current_positions.inRange
      rw [turn_left_positions]
      decide
  | turn_right angle =>
      show (turn_right s angle).current_positions.inRange
      rw [turn_right_positions]
      decide
  | dance =>
      show (dance s).current_positions.inRange
      rw [dance_positions]
      decide
  | wave =>
      show (wave s).current_positions.inRange
      rw [wave_positions]
      decide
  | stop =>
      show (stop s).current_positions.inRange
      rw [stop_positions]
      decide

/-! ## Observers and distinguished states -/

/-- The twelve valid leg/joint identifier pairs (the leg-joint keys of
`SERVO_PINS`). -/
def validJointPairs : List (String × String) :=
  [("leg1", "shoulder"), ("leg1", "elbow"), ("leg1", "foot"),
   ("leg2", "shoulder"), ("leg2", "elbow"), ("leg2", "foot"),
   ("leg3", "shoulder"), ("leg3", "elbow"), ("leg3", "foot"),
   ("leg4", "shoulder"), ("leg4", "elbow"), ("leg4", "foot")]

/-- Read the stored angle of a named joint (the value
`getattr(self.current_positions[leg], joint)` reports). -/
def jointValue (ps : Positions) (leg joint : String) : Int :=
  let p :=
    if leg = "leg1" then ps.leg1
    else if leg = "leg2" then ps.leg2
    else if leg = "leg3" then ps.leg3
    else ps.leg4
  if joint = "shoulder" then p.shoulder
  else if joint = "elbow" then p.elbow
  else p.foot

/-- The controller state right after `__init__` (lines 43-44, 64-68):
not moving, mode `IDLE`, every joint at its home pose. -/
def initState : SpiderState := ⟨false, "IDLE", homePositionsP⟩

/-! ## Claim theorems -/

/-- C1: for every input angle (any integer) and every valid leg/joint
pair, `_set_servo` stores exactly the clamped angle, which lies within
`[servo_min, servo_max] = [0, 180]` (out-of-range writes are clamped, not
rejected); consequently the joint safety invariant — every stored joint
angle in `[0, 180]` — is preserved by every public gait-engine
primitive. -/
theorem set_servo_clamps_and_invariant_holds :
    (∀ (s : SpiderState) (leg joint : String) (a : Int),
        (leg, joint) ∈ validJointPairs →
        jointValue (set_servo s leg joint a).current_positions leg joint =
            clampAngle a ∧
          servo_min ≤ clampAngle a ∧ clampAngle a ≤ servo_max) ∧
    (∀ (op : GaitOp) (s : SpiderState), s.inRange → (applyOp op s).inRange) := by
  constructor
  · intro s leg joint a hmem
    refine ⟨?_, clampAngle_nonneg a, clampAngle_le_max a⟩
    fin_cases hmem <;>
      simp [set_servo, lookupPin, SERVO_PINS, List.lookup, Positions.setLeg,
        ServoPosition.setJoint, jointValue]
  · exact applyOp_inRange

/-- C1 witness: at the concrete out-of-range write
`_set_servo('leg1', 'shoulder', 500)` the stored angle is the clamp `180`,
and the invariant is preserved across a concrete `turn_left(40)` from the
initial state. -/
theorem set_servo_clamps_and_invariant_holds_witness :
    (jointValue
        (set_servo initState "leg1" "shoulder" 500).current_positions
        "leg1" "shoulder" = clampAngle 500 ∧
      servo_min ≤ clampAngle 500 ∧ clampAngle 500 ≤ servo_max) ∧
    (applyOp (GaitOp.turn_left 40) initState).inRange :=
  ⟨set_servo_clamps_and_invariant_holds.1 initState "leg1" "shoulder" 500
      (by decide),
   set_servo_clamps_and_invariant_holds.2 (GaitOp.turn_left 40) initState
      (by decide)⟩

/-- C2 counterexample: the claim "after the primitive completes normally,
every one of the twelve stored joint angles equals its leg's home value"
fails for `sit_down`: from the initial (home) state, `sit_down` leaves
leg 1's elbow at `147`, not at its home value `120`. -/
theorem sit_down_breaks_home_convergence :
    (applyOp GaitOp.sit_down initState).current_positions ≠ homePositionsP ∧
    (applyOp GaitOp.sit_down initState).current_positions.leg1.elbow = 147 ∧
    homePositionsP.leg1.elbow = 120 := by
  have h : applyOp GaitOp.sit_down initState = sit_down initState := rfl
  refine ⟨?_, ?_, rfl⟩
  · rw [h, sit_down_positions]
    decide
  · rw [h, sit_down_positions]

/-- C2 amended: every locomotion primitive except `sit_down` leaves all
twelve stored joint angles at their home-pose values on normal completion;
`sit_down` instead leaves every elbow at its home value plus 27 degrees
and does not modify the shoulder and foot angles. -/
theorem primitives_converge_home_except_sit_down :
    (∀ (op : GaitOp) (s : SpiderState), op ≠ GaitOp.sit_down →
        (applyOp op s).current_positions = homePositionsP) ∧
    (∀ s : SpiderState,
        (applyOp GaitOp.sit_down s).current_positions =
          ⟨⟨s.current_positions.leg1.shoulder, 147,
              s.current_positions.leg1.foot⟩,
           ⟨s.current_positions.leg2.shoulder, 147,
              s.current_positions.leg2.foot⟩,
           ⟨s.current_positions.leg3.shoulder, 87,
              s.current_positions.leg3.foot⟩,
           ⟨s.current_positions.leg4.shoulder, 87,
              s.current_positions.leg4.foot⟩⟩) := by
  constructor
  · intro op s hne
    cases op with
    | go_home => exact go_home_positions s
    | stand_up => exact stand_up_positions s
    | sit_down => exact absurd rfl hne
    | walk_forward steps => exact walk_forward_positions s steps
    | walk_backward steps => exact walk_backward_positions s steps
    | turn_left angle => exact turn_left_positions s angle
    | turn_right angle => exact turn_right_positions s angle
    | dance => exact dance_positions s
    | wave => exact wave_positions s
    | stop => exact stop_positions s
  · exact sit_down_positions

/-- C2 amended witness: concrete instance — `walk_forward(3)` from the
initial state ends with all joints at home. -/
theorem primitives_converge_home_except_sit_down_witness :
    (applyOp (GaitOp.walk_forward 3) initState).current_positions =
      homePositionsP :=
  primitives_converge_home_except_sit_down.1 (GaitOp.walk_forward 3)
    initState (by decide)

/-- C7 counterexample: `go_home` does not touch `is_moving`; called on a
state whose moving flag is set, the flag is still set afterwards, so
"after `go_home` returns, `is_moving` equals false for every pre-state"
fails. -/
theorem go_home_keeps_moving_flag :
    (go_home ⟨true, "IDLE", homePositionsP⟩).is_moving ≠ false := by
  rw [go_home_is_moving]
  decide

/-- C7 amended: after `go_home`, the mode is `HOME` and every stored joint
angle equals its home-pose value, but `is_moving` is unchanged from the
pre-state (the gait primitives clear it themselves in their `finally:`
blocks before calling `go_home`). -/
theorem go_home_contract :
    ∀ s : SpiderState,
      (go_home s).current_mode = "HOME" ∧
      (go_home s).current_positions = homePositionsP ∧
      (go_home s).is_moving = s.is_moving :=
  fun s => ⟨go_home_mode s, go_home_positions s, go_home_is_moving s⟩

/-- C3: for each of the six `try`/`finally` gait primitives, on every exit
path — interruption by an exception after any prefix of the body's joint
writes, as well as normal completion (`k` at least the body length) — the
final state has `is_moving = false`, all joints at their home poses and
mode `HOME` (the `finally:` block clears the flag and calls `go_home`);
and interruption at the full body length coincides with the primitive's
normal run. -/
theorem gait_cleanup_guarantee :
    (∀ (g : Gait) (s : SpiderState) (k : Nat),
        (runGaitInterrupted g s k).is_moving = false ∧
        (runGaitInterrupted g s k).current_positions = homePositionsP ∧
        (runGaitInterrupted g s k).current_mode = "HOME") ∧
    (∀ (g : Gait) (s : SpiderState),
        runGaitInterrupted g s g.writes.length = applyOp g.toOp s) := by
  constructor
  · intro g s k
    exact ⟨gait_finally_is_moving _, gait_finally_positions _,
      gait_finally_mode _⟩
  · intro g s
    unfold runGaitInterrupted
    rw [List.take_length]
    cases g <;> rfl

/-- C5 counterexample: the loop `for _ in range(angle // 15)` performs
`max(angle // 15, 0)` repetitions, so for a negative angle the claim
"exactly `angle // 15` repetitions for every integer angle" fails:
`turn_left(-15)` performs `0` repetitions while `-15 // 15 = -1`. -/
theorem turn_reps_negative_counterexample :
    (turn_steps (-15) : Int) = -1 ∧
    turn_left_writes (-15) = [] ∧
    turnL_cycle.length = 12 := by
  refine ⟨by decide, ?_, by decide⟩
  rw [show turn_left_writes (-15) =
    repeatList (turn_steps (-15)).toNat turnL_cycle from rfl]
  decide

theorem repeatList_length (n : Nat) (xs : List Action) :
    (repeatList n xs).length = n * xs.length := by
  induction n with
  | zero => simp [repeatList]
  | succ m ih =>
      rw [repeatList, List.length_append, ih]
      ring

/-- C5 amended: `turn_left(angle)` / `turn_right(angle)` perform
`max(angle // 15, 0)` repetitions of the twelve-write rotation cycle
(Python's `range` performs no iterations for a negative bound); for every
nonnegative angle this is exactly `angle // 15` (floor division), so
`turn_left(40)` performs exactly `2` repetitions — an angle not divisible
by 15 under-rotates. -/
theorem turn_reps_floor_division :
    (∀ angle : Int, 0 ≤ angle →
        ((turn_steps angle).toNat : Int) = Int.fdiv angle 15) ∧
    (∀ angle : Int,
        (turn_left_writes angle).length =
            (turn_steps angle).toNat * turnL_cycle.length ∧
        (turn_right_writes angle).length =
            (turn_steps angle).toNat * turnR_cycle.length) ∧
    (turn_steps 40).toNat = 2 ∧ turnL_cycle.length = 12 := by
  refine ⟨?_, ?_, by decide, by decide⟩
  · intro angle h0
    rw [Int.toNat_of_nonneg]
    · rfl
    · rw [turn_steps, Int.fdiv_eq_ediv _ (by norm_num)]
      exact Int.ediv_nonneg h0 (by norm_num)
  · intro angle
    exact ⟨repeatList_length _ _, repeatList_length _ _⟩

/-- C5 amended witness: at the concrete angle `40`, the computed
repetition count is `40 // 15 = 2`. -/
theorem turn_reps_floor_division_witness :
    ((turn_steps 40).toNat : Int) = Int.fdiv 40 15 :=
  turn_reps_floor_division.1 40 (by decide)

/-- C10: a `_set_servo` call whose `"leg_joint"` key is not in
`SERVO_PINS` returns before updating any stored position and before any
hardware write: the state is unchanged and no hardware write is
attempted. -/
theorem unknown_servo_key_noop :
    ∀ (s : SpiderState) (leg joint : String) (a : Int) (servosPresent : Bool)
      (hwFail : Nat → Int → Bool),
      lookupPin (leg ++ "_" ++ joint) = none →
      set_servo s leg joint a = s ∧
      set_servo_hw servosPresent hwFail s leg joint a = Except.ok (s, []) := by
  intro s leg joint a servosPresent hwFail h
  unfold set_servo set_servo_hw
  rw [h]
  exact ⟨rfl, rfl⟩

/-- C10 witness: the unknown pair `('leg5', 'shoulder')` (key
`"leg5_shoulder"`, absent from `SERVO_PINS`) leaves the state unchanged
and attempts no hardware write, even with hardware present. -/
theorem unknown_servo_key_noop_witness :
    set_servo initState "leg5" "shoulder" 42 = initState ∧
    set_servo_hw true (fun _ _ => true) initState "leg5" "shoulder" 42 =
      Except.ok (initState, []) :=
  unknown_servo_key_noop initState "leg5" "shoulder" 42 true
    (fun _ _ => true) (by decide)

/-- The hardware writes `_set_servo` attempts: none when the key is
unknown or `self.servos` is `None`, otherwise the single clamped write to
the mapped channel. -/
def hw_attempts (servosPresent : Bool) (leg joint : String) (a : Int) :
    List (Nat × Int) :=
  match lookupPin (leg ++ "_" ++ joint) with
  | none => []
  | some idx => if servosPresent then [(idx, clampAngle a)] else []

/-- C8: a raising actuator write is caught inside `_set_servo` — the call
always returns normally (`Except.ok`), the stored position still becomes
the clamped target (the same successor state as the pure `set_servo`),
and the result is identical to the one with a never-failing actuator. -/
theorem hw_failure_transparent :
    ∀ (servosPresent : Bool) (hwFail : Nat → Int → Bool) (s : SpiderState)
      (leg joint : String) (a : Int),
      set_servo_hw servosPresent hwFail s leg joint a =
          Except.ok (set_servo s leg joint a,
            hw_attempts servosPresent leg joint a) ∧
      set_servo_hw servosPresent hwFail s leg joint a =
          set_servo_hw servosPresent (fun _ _ => false) s leg joint a := by
  intro servosPresent hwFail s leg joint a
  unfold set_servo_hw set_servo hw_attempts try_hw_write
  cases h : lookupPin (leg ++ "_" ++ joint) with
  | none => simp [h]
  | some idx =>
      cases servosPresent with
      | false => simp [h]
      | true =>
          cases hf : hwFail idx (clampAngle a) <;> simp [h, hf]

/-- C4: evaluation of the shutdown escalation at the claimed scenario.
During an in-flight graceful shutdown the flags are
`shutdown_requested = true` (set by the handler on the first signal) and
`shutdown_in_progress = true` (set by the graceful thread's first
statement), so a second signal falls through both guards into the
`os._exit(1)` branch — immediate termination, not the forced-shutdown
branch.  The forced branch is reachable only while
`shutdown_in_progress` is false, i.e. before the graceful thread has
started or after it has finished. -/
theorem second_signal_during_graceful_is_immediate :
    duringGracefulFlags =
        graceful_entry_sets (first_signal_sets initShutdownFlags) ∧
    signal_branch duringGracefulFlags = ShutdownBranch.immediate ∧
    signal_branch duringGracefulFlags ≠ ShutdownBranch.forced ∧
    signal_branch ⟨true, false⟩ = ShutdownBranch.forced := by
  refine ⟨rfl, ?_, ?_, ?_⟩ <;> decide

/-- C9 counterexample: when the graceful shutdown misses the 15 s join
timeout, the first-signal handler runs `_force_shutdown()` and then falls
through to `sys.exit(0)` — the forced-shutdown path runs yet the process
exits with code 0, not 1. -/
theorem forced_timeout_path_exits_zero :
    (first_signal_outcome false).forcedRan = true ∧
    (first_signal_outcome false).exitCode = 0 ∧
    (first_signal_outcome false).exitCode ≠ 1 := by
  refine ⟨?_, ?_, ?_⟩ <;> decide

/-- C9 amended: the first-signal path always exits with code 0, whether
or not the graceful shutdown finished in time (so a timeout-triggered
forced shutdown also exits 0); exit code 1 is produced by the
forced-shutdown path triggered by a second signal and by a fatal startup
error. -/
theorem exit_code_contract :
    (∀ gracefulFinishedInTime : Bool,
        (first_signal_outcome gracefulFinishedInTime).exitCode = 0) ∧
    second_signal_outcome.exitCode = 1 ∧
    second_signal_outcome.forcedRan = true ∧
    fatal_startup_exit_code = 1 := by
  refine ⟨?_, ?_, ?_, ?_⟩ <;> decide

/-! ## Lemmas about the echo polling loops -/

/-- A polling loop that exits on an edge either performed no iteration
(the pulse variable keeps its initial value and the clock index is
unchanged) or returns the clock reading of its last iteration. -/
theorem wait_while_edge_spec (env : EchoEnv) (level : Bool) (timeout : Int) :
    ∀ (fuel eIdx tIdx : Nat) (p : Int) (e' t' : Nat) (p' : Int),
      wait_while env level timeout fuel eIdx tIdx p =
          EdgeWait.edge e' t' p' →
      (t' = tIdx ∧ p' = p) ∨ (tIdx < t' ∧ p' = env.clock (t' - 1)) := by
  intro fuel
  induction fuel with
  | zero =>
      intro eIdx tIdx p e' t' p' h
      simp [wait_while] at h
  | succ n ih =>
      intro eIdx tIdx p e' t' p' h
      rw [wait_while] at h
      by_cases he : env.echo eIdx = level
      · rw [if_pos he] at h
        dsimp only at h
        by_cases ht : timeout < env.clock tIdx
        · rw [if_pos ht] at h
          exact absurd h (by simp)
        · rw [if_neg ht] at h
          rcases ih (eIdx + 1) (tIdx + 1) (env.clock tIdx) e' t' p' h with
            ⟨h1, h2⟩ | ⟨h1, h2⟩
          · refine Or.inr ⟨by omega, ?_⟩
            rw [h2, h1]
            norm_num
          · exact Or.inr ⟨by omega, h2⟩
      · rw [if_neg he] at h
        obtain ⟨rfl, rfl, rfl⟩ : eIdx + 1 = e' ∧ tIdx = t' ∧ p = p' := by
          cases h
          exact ⟨rfl, rfl, rfl⟩
        exact Or.inl ⟨rfl, rfl⟩

/-- With a strictly advancing clock, a polling loop given one more unit of
fuel than the remaining ticks to the deadline cannot exhaust its fuel: it
exits on an edge or on the timeout guard. -/
theorem wait_while_no_fuelOut (env : EchoEnv) (level : Bool) (timeout : Int)
    (hmono : ∀ n, env.clock n < env.clock (n + 1)) :
    ∀ (fuel eIdx tIdx : Nat) (p : Int),
      timeout < env.clock tIdx + (fuel : Int) →
      wait_while env level timeout (fuel + 1) eIdx tIdx p ≠
        EdgeWait.fuelOut := by
  intro fuel
  induction fuel with
  | zero =>
      intro eIdx tIdx p hlt
      rw [wait_while]
      by_cases he : env.echo eIdx = level
      · rw [if_pos he]
        dsimp only
        rw [if_pos (by push_cast at hlt; omega : timeout < env.clock tIdx)]
        simp
      · rw [if_neg he]
        simp
  | succ n ih =>
      intro eIdx tIdx p hlt
      rw [wait_while]
      by_cases he : env.echo eIdx = level
      · rw [if_pos he]
        dsimp only
        by_cases ht : timeout < env.clock tIdx
        · rw [if_pos ht]
          simp
        · rw [if_neg ht]
          apply ih
          have hm := hmono tIdx
          push_cast at hlt ⊢
          omega
      · rw [if_neg he]
        simp

/-- C6 counterexample environment: the echo line reads HIGH at exactly one
poll (index 1) and LOW everywhere else, with a unit-step clock.  The
rising-edge loop then iterates once (recording `pulse_start` after
`pulse_end`'s initial reading), and the falling-edge loop exits without
iterating, so `pulse_end < pulse_start`. -/
def glitchEnv : EchoEnv :=
  ⟨false, fun k => k == 1, fun n => (n : Int)⟩

/-- C6 counterexample: in `glitchEnv` both edges are observed before the
timeout and no I/O error occurs, yet `get_distance` returns the negative
value `-34300` (scaled), which is neither `0.0` nor positive — refuting
"returns 0.0 on timeout/error and a positive distance otherwise". -/
theorem glitch_negative_distance :
    get_distance glitchEnv 100001 = Measurement.value (-34300) ∧
    wait_while glitchEnv false (glitchEnv.clock 2 + ECHO_TIMEOUT_TICKS)
        100001 0 3 (glitchEnv.clock 0) = EdgeWait.edge 2 4 3 ∧
    wait_while glitchEnv true (glitchEnv.clock 2 + ECHO_TIMEOUT_TICKS)
        100001 2 4 (glitchEnv.clock 1) = EdgeWait.edge 3 4 1 ∧
    glitchEnv.ioError = false ∧
    ¬ (0 < (-34300 : Int)) ∧ (-34300 : Int) ≠ 0 := by
  refine ⟨?_, ?_, ?_, ?_, ?_, ?_⟩ <;> decide

/-- C6 amended: the measurement returns `0.0` on a sensor I/O error and
whenever either polling loop hits its timeout guard; when both edges are
observed it returns `(pulse_end - pulse_start) * 17150`, which is positive
whenever the rising edge was already present at the first poll (`t1 = 3`)
or the falling-edge loop performed at least one poll (`t1 < t2`) — in the
remaining degenerate single-poll-echo case the result can be negative (see
the counterexample); and with a strictly advancing clock the measurement
never exhausts a fuel budget of one poll per timeout tick plus one, i.e.
the polling terminates within the timeout-bounded number of polls. -/
theorem get_distance_contract :
    (∀ (env : EchoEnv) (fuel : Nat), env.ioError = true →
        get_distance env fuel = Measurement.value 0) ∧
    (∀ (env : EchoEnv) (fuel : Nat), env.ioError = false →
        (wait_while env false (env.clock 2 + ECHO_TIMEOUT_TICKS) fuel 0 3
            (env.clock 0) = EdgeWait.timedOut →
          get_distance env fuel = Measurement.value 0) ∧
        (∀ (e1 t1 : Nat) (ps : Int),
          wait_while env false (env.clock 2 + ECHO_TIMEOUT_TICKS) fuel 0 3
              (env.clock 0) = EdgeWait.edge e1 t1 ps →
          wait_while env true (env.clock 2 + ECHO_TIMEOUT_TICKS) fuel e1 t1
              (env.clock 1) = EdgeWait.timedOut →
          get_distance env fuel = Measurement.value 0)) ∧
    (∀ (env : EchoEnv) (fuel : Nat), env.ioError = false →
        (∀ n, env.clock n < env.clock (n + 1)) →
        ∀ (e1 t1 : Nat) (ps : Int) (e2 t2 : Nat) (pe : Int),
          wait_while env false (env.clock 2 + ECHO_TIMEOUT_TICKS) fuel 0 3
              (env.clock 0) = EdgeWait.edge e1 t1 ps →
          wait_while env true (env.clock 2 + ECHO_TIMEOUT_TICKS) fuel e1 t1
              (env.clock 1) = EdgeWait.edge e2 t2 pe →
          t1 = 3 ∨ t1 < t2 →
          get_distance env fuel = Measurement.value ((pe - ps) * 17150) ∧
            0 < (pe - ps) * 17150) ∧
    (∀ env : EchoEnv, (∀ n, env.clock n < env.clock (n + 1)) →
        get_distance env (ECHO_TIMEOUT_TICKS.toNat + 1) ≠
          Measurement.diverged) := by
  refine ⟨?_, ?_, ?_, ?_⟩
  · intro env fuel h
    simp [get_distance, h]
  · intro env fuel hio
    constructor
    · intro h1
      simp [get_distance, hio, h1]
    · intro e1 t1 ps h1 h2
      simp [get_distance, hio, h1, h2]
  · intro env fuel hio hmono e1 t1 ps e2 t2 pe h1 h2 hcase
    have hm : StrictMono env.clock := strictMono_nat_of_lt_succ hmono
    refine ⟨by simp [get_distance, hio, h1, h2], ?_⟩
    have hps : ps < pe := by
      rcases wait_while_edge_spec env false _ fuel 0 3 (env.clock 0)
          e1 t1 ps h1 with ⟨ht1, hp1⟩ | ⟨ht1, hp1⟩
      · rcases wait_while_edge_spec env true _ fuel e1 t1 (env.clock 1)
            e2 t2 pe h2 with ⟨ht2, hp2⟩ | ⟨ht2, hp2⟩
        · rw [hp1, hp2]
          exact hm (by omega)
        · rw [hp1, hp2]
          exact hm (by omega)
      · rcases wait_while_edge_spec env true _ fuel e1 t1 (env.clock 1)
            e2 t2 pe h2 with ⟨ht2, hp2⟩ | ⟨ht2, hp2⟩
        · omega
        · rw [hp1, hp2]
          exact hm (by omega)
    have : (0 : Int) < pe - ps := by omega
    positivity
  · intro env hmono
    by_cases hio : env.ioError
    · simp [get_distance, hio]
    · simp only [Bool.not_eq_true] at hio
      have hm : StrictMono env.clock := strictMono_nat_of_lt_succ hmono
      have hcast : ((ECHO_TIMEOUT_TICKS.toNat : Nat) : Int) =
          ECHO_TIMEOUT_TICKS := by decide
      have h23 : env.clock 2 < env.clock 3 := hmono 2
      have hb1 : env.clock 2 + ECHO_TIMEOUT_TICKS <
          env.clock 3 + (ECHO_TIMEOUT_TICKS.toNat : Int) := by
        rw [hcast]
        omega
      rcases hw1 : wait_while env false (env.clock 2 + ECHO_TIMEOUT_TICKS)
          (ECHO_TIMEOUT_TICKS.toNat + 1) 0 3 (env.clock 0) with
        _ | _ | ⟨e1, t1, ps⟩
      · exact absurd hw1
          (wait_while_no_fuelOut env false _ hmono ECHO_TIMEOUT_TICKS.toNat
            0 3 (env.clock 0) hb1)
      · simp [get_distance, hio, hw1]
      · have ht1 : 3 ≤ t1 := by
          rcases wait_while_edge_spec env false _ _ 0 3 (env.clock 0)
              e1 t1 ps hw1 with ⟨h, _⟩ | ⟨h, _⟩ <;> omega
        have hb2 : env.clock 2 + ECHO_TIMEOUT_TICKS <
            env.clock t1 + (ECHO_TIMEOUT_TICKS.toNat : Int) := by
          have h3 : env.clock 3 ≤ env.clock t1 := hm.monotone ht1
          have h23 : env.clock 2 < env.clock 3 := hmono 2
          rw [hcast]
          omega
        rcases hw2 : wait_while env true (env.clock 2 + ECHO_TIMEOUT_TICKS)
            (ECHO_TIMEOUT_TICKS.toNat + 1) e1 t1 (env.clock 1) with
          _ | _ | ⟨e2, t2, pe⟩
        · exact absurd hw2
            (wait_while_no_fuelOut env true _ hmono ECHO_TIMEOUT_TICKS.toNat
              e1 t1 (env.clock 1) hb2)
        · simp [get_distance, hio, hw1, hw2]
        · simp [get_distance, hio, hw1, hw2]

/-- C6 amended witness environment: echo HIGH at polls 0 and 1, LOW
afterwards; unit-step clock.  The rising edge is present at the first
poll and the falling-edge loop iterates once. -/
def posEnv : EchoEnv :=
  ⟨false, fun k => decide (k < 2), fun n => (n : Int)⟩

/-- C6 amended witness: in `posEnv` the measurement completes normally and
the returned distance is positive. -/
theorem get_distance_contract_witness :
    get_distance posEnv 100001 = Measurement.value ((3 - 0) * 17150) ∧
      0 < ((3 : Int) - 0) * 17150 :=
  get_distance_contract.2.2.1 posEnv 100001 rfl
    (fun n => by
      show ((n : Int)) < (((n + 1 : Nat)) : Int)
      exact_mod_cast Nat.lt_succ_self n)
    1 3 0 3 4 3 (by decide) (by decide) (Or.inl rfl)

end HeySpider
